import Mathlib

/-!
# Verification of the cross-seed Arr gateway and database bootstrap

Shallow embedding of `src/arr.ts` and the database-initialisation module of
the cross-seed repository, with theorems settling the specification claims
about Arr ID resolution, error handling, and persistent-store setup.

Network I/O is modelled by explicit oracle functions (one call's outcome per
`(url, title)` pair), and the modules' side effects on databases by an
explicit event trace interpreted over a system state.
-/

set_option maxRecDepth 10000

namespace CrossSeed

/-! ## Data model (from `src/arr.ts` interfaces and imported types) -/

/-- `ExternalIds` from arr.ts: each of the three ids is a JS
string-or-undefined; `none` models `undefined`/absent. -/
structure ExternalIds where
  imdbId : Option String := none
  tmdbId : Option String := none
  tvdbId : Option String := none
deriving Repr, DecidableEq

/-- `isTruthy` from utils.ts applied to an optional id string: JS truthiness,
so `undefined` and the empty string are falsy. -/
def isTruthy : Option String → Bool
  | none => false
  | some s => s ≠ ""

/-- `Object.values(ids).some(isTruthy)` for an `ExternalIds` record. -/
def hasTruthyId (ids : ExternalIds) : Bool :=
  isTruthy ids.imdbId || isTruthy ids.tmdbId || isTruthy ids.tvdbId

/-- `ParsedMedia = ParsedMovie | ParsedSeries` from arr.ts: exactly one of
`movie` or `series` is present; a series additionally carries episodes
(pairs of season and episode numbers). -/
inductive ParsedMedia where
  | movie (ids : ExternalIds)
  | series (ids : ExternalIds) (episodes : List (Nat × Nat))
deriving Repr, DecidableEq

/-- `response.movie ?? response.series ?? {}` in `scanAllArrsForMedia`:
whichever external-id object the parse response carries. -/
def ParsedMedia.externalIds : ParsedMedia → ExternalIds
  | .movie ids => ids
  | .series ids _ => ids

/-- Modelled from the spec: `MediaType` (utils.ts is not under src/); §4.2
gives the classification tags MOVIE, EPISODE, SEASON, ANIME, OTHER. -/
inductive MediaType where
  | movie | episode | season | anime | other
deriving Repr, DecidableEq

/-- A JS `Error` value: `name` and `message` (`cause` is not needed by any
claim). -/
structure JsError where
  name : String := "Error"
  message : String := ""
deriving Repr, DecidableEq

/-- The `Result` type of Result.js: `resultOf` builds `ok`, `resultOfErr`
builds `err`. -/
inductive Result (α : Type) (ε : Type) where
  | ok (value : α)
  | err (error : ε)
deriving Repr, DecidableEq

/-- Modelled from the spec: the runtime configuration's Arr lists
(runtimeConfig.ts is not under src/). `sonarr` and `radarr` are the lists of
configured instance URLs, as consumed by `getRelevantArrInstances`. -/
structure RuntimeConfig where
  sonarr : List String := []
  radarr : List String := []
deriving Repr, DecidableEq

/-- `Searchee` as used by arr.ts: only its `name` is read. -/
structure Searchee where
  name : String
deriving Repr, DecidableEq

/-! ## Title cleaning for OTHER media

The helpers below live in utils.ts / constants.ts, which are not under
src/; each is modelled from the spec's words (§4.2 and the C10 sources:
"stripping the file extension and removing release-group, resolution, and
repack/proper tokens and cleansing separators"). The theorems about
`scanAllArrsForMedia` depend only on which composite is applied for which
media type, not on the internals of these helpers. -/

/-- Split a character list on a separator character: accumulator-based
structural recursion, so it evaluates inside the kernel. -/
def splitCharsAux (sep : Char) (cur : List Char) : List Char → List (List Char)
  | [] => [cur.reverse]
  | c :: cs =>
    if c = sep then cur.reverse :: splitCharsAux sep [] cs
    else splitCharsAux sep (c :: cur) cs

/-- Split a character list on a separator character. -/
def splitChars (sep : Char) (l : List Char) : List (List Char) :=
  splitCharsAux sep [] l

/-- Join character-list words with a separator character. -/
def joinChars (sep : Char) : List (List Char) → List Char
  | [] => []
  | [w] => w
  | w :: ws => w ++ sep :: joinChars sep ws

/-- Remove the first occurrence of a token from a character list
(the effect of a JS non-global `String.replace` with the empty string). -/
def removeTokenOnce (tok : List Char) : List Char → List Char
  | [] => []
  | c :: cs =>
    if tok ≠ [] ∧ tok.isPrefixOf (c :: cs) then (c :: cs).drop tok.length
    else c :: removeTokenOnce tok cs

/-- Modelled from the spec: `stripExtension` from utils.ts removes a trailing
file extension from a release name when one is present. -/
def stripExtension (name : String) : String :=
  let exts := [".mkv", ".mp4", ".avi", ".ts", ".m2ts", ".mov", ".flac", ".mp3"]
  match exts.find? (fun e => e.data.isSuffixOf name.data) with
  | some e => name.dropRight e.length
  | none => name

/-- Modelled from the spec: `.replace(RELEASE_GROUP_REGEX, "")` removes a
trailing `-GROUP` release-group token (the segment after the last dash,
when it is a single word). -/
def removeReleaseGroup (name : String) : String :=
  match (splitChars '-' name.data).reverse with
  | grp :: front₁ :: front =>
    if grp.contains ' ' then name
    else String.mk (joinChars '-' (front₁ :: front).reverse)
  | _ => name

/-- Modelled from the spec: `.replace(RESOLUTION_REGEX, "")` removes a
resolution token such as `1080p`. -/
def removeResolution (name : String) : String :=
  String.mk (removeTokenOnce "2160p".data (removeTokenOnce "1080p".data
    (removeTokenOnce "720p".data (removeTokenOnce "480p".data name.data))))

/-- Modelled from the spec: `.replace(REPACK_PROPER_REGEX, "")` removes
repack/proper flags. -/
def removeRepackProper (name : String) : String :=
  String.mk (removeTokenOnce "REPACK".data (removeTokenOnce "PROPER".data
    (removeTokenOnce "Repack".data name.data)))

/-- Modelled from the spec: `cleanseSeparators` from utils.ts turns
dot/underscore separators into spaces and collapses runs of spaces. -/
def cleanseSeparators (name : String) : String :=
  let mapped := name.data.map (fun c => if c = '.' ∨ c = '_' then ' ' else c)
  String.mk (joinChars ' ' ((splitChars ' ' mapped).filter (· ≠ [])))

/-- The title computed by `scanAllArrsForMedia` (arr.ts lines 239-247):
for OTHER media the searchee name is stripped of extension, release group,
resolution and repack/proper tokens and cleansed; otherwise the raw name. -/
def scanTitle (mediaType : MediaType) (searchee : Searchee) : String :=
  if mediaType = .other then
    cleanseSeparators
      (removeRepackProper (removeResolution (removeReleaseGroup (stripExtension searchee.name))))
  else searchee.name

/-! ## Arr instance selection and the scan loop (arr.ts lines 215-270) -/

/-- `getRelevantArrInstances` from arr.ts: Sonarr for SEASON/EPISODE, Radarr
for MOVIE, both (Sonarr first) for ANIME/OTHER. -/
def getRelevantArrInstances (cfg : RuntimeConfig) (mediaType : MediaType) : List String :=
  match mediaType with
  | .season | .episode => cfg.sonarr
  | .movie => cfg.radarr
  | .anime | .other => cfg.sonarr ++ cfg.radarr

/-- The per-instance query title (arr.ts lines 250-254): for OTHER media a
Sonarr instance gets the synthetic ` S00E00` suffix appended to the title. -/
def arrQueryName (cfg : RuntimeConfig) (mediaType : MediaType) (title uArrL : String) : String :=
  if mediaType = .other ∧ cfg.sonarr.contains uArrL then title ++ " S00E00" else title

/-- The network oracle: the outcome `getMediaFromArr(uArrL, name)` would
produce for each instance URL and query title. -/
def FetchParse : Type := String → String → Result ParsedMedia JsError

/-- One fetch is "successful" for the scan loop precisely when it returns Ok
and the movie-or-series ids contain a truthy value (arr.ts lines 255-266). -/
def fetchSucceeds (fetchParse : FetchParse) (uArrL name : String) : Bool :=
  match fetchParse uArrL name with
  | .ok response => hasTruthyId response.externalIds
  | .err _ => false

/-- The `for (const uArrL of uArrLs)` loop of `scanAllArrsForMedia`
(arr.ts lines 249-269): returns the loop's result together with the list of
`(url, title)` queries issued, in order. An instance that errors or returns
no truthy id is skipped; the first successful response is returned
immediately; if the list is exhausted the loop falls through to
`resultOfErr(false)`. -/
def scanArrLoop (cfg : RuntimeConfig) (fetchParse : FetchParse)
    (mediaType : MediaType) (title : String) :
    List String → Result ParsedMedia Bool × List (String × String)
  | [] => (.err false, [])
  | uArrL :: rest =>
    let name := arrQueryName cfg mediaType title uArrL
    match fetchParse uArrL name with
    | .err _ =>
      let r := scanArrLoop cfg fetchParse mediaType title rest
      (r.1, (uArrL, name) :: r.2)
    | .ok response =>
      if hasTruthyId response.externalIds then (.ok response, [(uArrL, name)])
      else
        let r := scanArrLoop cfg fetchParse mediaType title rest
        (r.1, (uArrL, name) :: r.2)

/-- `scanAllArrsForMedia` from arr.ts (lines 231-270): select the relevant
instances, short-circuit to `Err(false)` when none are configured, compute
the title, and run the loop. Returns the result paired with the ordered list
of queries performed. -/
def scanAllArrsForMedia (cfg : RuntimeConfig) (fetchParse : FetchParse)
    (searchee : Searchee) (mediaType : MediaType) :
    Result ParsedMedia Bool × List (String × String) :=
  let uArrLs := getRelevantArrInstances cfg mediaType
  if uArrLs.length = 0 then (.err false, [])
  else scanArrLoop cfg fetchParse mediaType (scanTitle mediaType searchee) uArrLs

/-! ## The Arr HTTP call (arr.ts lines 101-166) -/

/-- Modelled from the spec: the parsed view (Node `URL`) of a configured Arr
base url string after `sanitizeUrl` (utils.ts is not under src/): the origin,
the pathname, and the value of the original string's `apikey` query
parameter as extracted by `getApikey`. -/
structure ArrUrl where
  origin : String
  pathname : String
  apikey : Option String
deriving Repr, DecidableEq

/-- The HTTP request `makeArrApiCall` builds before calling `fetch`
(arr.ts lines 115-128): a GET of the joined path under the Arr origin, with
the given query parameters, the `X-Api-Key` header, and the
`AbortSignal.timeout(ms("30 seconds"))` deadline in milliseconds. -/
structure ArrRequest where
  method : String
  origin : String
  path : String
  params : List (String × String)
  headerApiKey : Option String
  timeoutMs : Nat
deriving Repr, DecidableEq

/-- Modelled from the spec: node's posix `path.join` as used by arr.ts and
the db module — joining a base path and a relative part with exactly one
slash (no caller passes `.` or `..` segments). -/
def posixJoin (a b : String) : String :=
  if a = "" then b
  else if b = "" then a
  else (if a.data.getLast? = some '/' then a.dropRight 1 else a) ++
    (if b.data.head? = some '/' then b else "/" ++ b)

/-- What the `fetch` inside `makeArrApiCall` did, one constructor per branch
of the source's error handling: the promise rejected (`thrown`, an
`AbortError` when the 30s signal fired), the response was non-2xx
(`httpError`), the body parsed as JSON (`okJson`), or it did not
(`okNonJson`). -/
inductive FetchOutcome (α : Type) where
  | thrown (e : JsError)
  | httpError (status : Nat) (statusText : String) (body : String)
  | okJson (value : α)
  | okNonJson (body : String)
deriving Repr, DecidableEq

/-- `getBodySampleMessage` from arr.ts: the first 1000 characters of the
body, prefixed, or the empty string when the sample is empty
(JS string truthiness). -/
def getBodySampleMessage (text : String) : String :=
  let first1000Chars := text.take 1000
  if first1000Chars ≠ "" then "first 1000 characters: " ++ first1000Chars
  else ""

/-- `makeArrApiCall` from arr.ts (lines 110-155), split into the request it
constructs and the `Result` it returns for a given fetch outcome. An
`AbortError` becomes `Err(new Error("connection timeout"))`; any other
rejection is returned as-is; a non-2xx status or a non-JSON body becomes an
error embedding the body sample; a JSON body is returned as `Ok`. -/
def makeArrApiCall (α : Type) (uArrL : ArrUrl) (resourcePath : String)
    (params : List (String × String)) (outcome : FetchOutcome α) :
    ArrRequest × Result α JsError :=
  let request : ArrRequest :=
    { method := "GET"
      origin := uArrL.origin
      path := posixJoin uArrL.pathname resourcePath
      params := params
      headerApiKey := uArrL.apikey
      timeoutMs := 30000 }
  let result : Result α JsError :=
    match outcome with
    | .thrown e =>
      if e.name = "AbortError" then .err { message := "connection timeout" }
      else .err e
    | .httpError status statusText body =>
      .err { message := toString status ++ " " ++ statusText ++ " " ++ getBodySampleMessage body }
    | .okJson value => .ok value
    | .okNonJson body =>
      .err { message := "Arr response was non-JSON. " ++ getBodySampleMessage body }
  (request, result)

/-- `getMediaFromArr` from arr.ts (lines 157-166): the parse lookup, a
`makeArrApiCall` on `/api/v3/parse` with the title as the `title` query
parameter. -/
def getMediaFromArr (uArrL : ArrUrl) (title : String) (outcome : FetchOutcome ParsedMedia) :
    ArrRequest × Result ParsedMedia JsError :=
  makeArrApiCall ParsedMedia uArrL "/api/v3/parse" [("title", title)] outcome

/-! ## Startup validation (arr.ts lines 48-99) -/

/-- `CrossSeedError` from errors.ts: the fatal configuration error. -/
structure CrossSeedError where
  message : String
deriving Repr, DecidableEq

/-- The JSON body of the ping at `{arrUrl}/api`: possibly lacking the
`current` field (`none` models absence). -/
structure PingBody where
  current : Option String := none
deriving Repr, DecidableEq

/-- `!arrPingResponse?.current` from `checkArrIsActive`: the whole body may
be JSON `null` (outer `none`) and `current` must be truthy. -/
def truthyCurrent : Option PingBody → Bool
  | none => false
  | some b => isTruthy b.current

/-- The ping oracle: the `Result` of `makeArrApiCall(uArrL, "/api")` for each
instance URL. -/
def PingCall : Type := String → Result (Option PingBody) JsError

/-- Whether a ping outcome validates connectivity: an `Ok` whose body has a
truthy `current` field. -/
def pingValidates (ping : PingCall) (uArrL : String) : Bool :=
  match ping uArrL with
  | .ok body => truthyCurrent body
  | .err _ => false

/-- Modelled from the spec: `new URL(str).searchParams.has("apikey")` — does
the URL string carry an `apikey` query parameter. -/
def urlHasApikey (url : String) : Bool :=
  match splitChars '?' url.data with
  | _ :: query :: _ =>
    (splitChars '&' query).any (fun p => (splitChars '=' p).head? = some "apikey".data)
  | _ => false

/-- `checkArrIsActive` from arr.ts (lines 75-99): throws a `CrossSeedError`
when the ping errors or when its body has no truthy `current`. -/
def checkArrIsActive (ping : PingCall) (uArrL : String) (arrInstance : String) :
    Except CrossSeedError Unit :=
  match ping uArrL with
  | .ok arrPingResponse =>
    if truthyCurrent arrPingResponse then .ok ()
    else .error { message :=
      "Failed to establish a connection to " ++ arrInstance ++ " URL: " ++ uArrL }
  | .err _ =>
    .error { message := "Could not contact " ++ arrInstance ++ " at " ++ uArrL }

/-- One validation loop of `validateUArrLs` (arr.ts lines 53-60 and 64-71):
for each URL in order, first the apikey check, then the ping; the first
failure throws. -/
def validateArrUrlList (ping : PingCall) (label : String) :
    List String → Except CrossSeedError Unit
  | [] => .ok ()
  | url :: rest =>
    if urlHasApikey url then
      match checkArrIsActive ping url label with
      | .ok _ => validateArrUrlList ping label rest
      | .error e => .error e
    else .error { message := label ++ " url " ++ url ++ " does not specify an apikey" }

/-- `validateUArrLs` from arr.ts (lines 48-73): validate every configured
Sonarr URL, then every configured Radarr URL. -/
def validateUArrLs (cfg : RuntimeConfig) (ping : PingCall) : Except CrossSeedError Unit :=
  match validateArrUrlList ping "Sonarr" cfg.sonarr with
  | .ok _ => validateArrUrlList ping "Radarr" cfg.radarr
  | .error e => .error e

/-! ## ID-search parameter selection (arr.ts lines 272-286) -/

/-- The per-mode ID-search capability flags referenced by
`getRelevantArrIds` (torznab.ts is not under src/; shape taken from the
usage at arr.ts lines 276-284). -/
structure IdSearchCaps where
  tvdbId : Bool := false
  tmdbId : Bool := false
  imdbId : Bool := false
deriving Repr, DecidableEq

/-- `Caps` as consumed by `getRelevantArrIds`: the movie and TV ID-search
capability sets of an indexer. -/
structure Caps where
  movieIdSearch : IdSearchCaps
  tvIdSearch : IdSearchCaps
deriving Repr, DecidableEq

/-- `IdSearchParams` from torznab.ts as produced by `getRelevantArrIds`. -/
structure IdSearchParams where
  tvdbid : Option String := none
  tmdbid : Option String := none
  imdbid : Option String := none
deriving Repr, DecidableEq

/-- `getRelevantArrIds` from arr.ts (lines 272-286): pick the movie
capability set when the parsed media has a `movie`, the TV set otherwise,
and pass through each resolved id exactly when the corresponding capability
flag is set. -/
def getRelevantArrIds (caps : Caps) (parsedMedia : ParsedMedia) : IdSearchParams :=
  let idSearchCaps :=
    match parsedMedia with
    | .movie _ => caps.movieIdSearch
    | .series _ _ => caps.tvIdSearch
  let ids := parsedMedia.externalIds
  { tvdbid := if idSearchCaps.tvdbId then ids.tvdbId else none
    tmdbid := if idSearchCaps.tmdbId then ids.tmdbId else none
    imdbid := if idSearchCaps.imdbId then ids.imdbId else none }

/-! ## The database bootstrap module

The module (db.ts; provided as an unnamed source file) opens a raw
better-sqlite3 handle on `cross-seed.db`, sets `journal_mode = WAL`, closes
the handle, creates the Knex connection on that file, creates a second Knex
connection on `":memory:"`, and creates the `data` and `ensemble` tables on
the in-memory connection only. Its side effects are embedded as an event
trace interpreted over a system state mapping database files to their
contents. -/

/-- A database connection target: a single on-disk file or `":memory:"`. -/
inductive DbConn where
  | file (filename : String)
  | memory
deriving Repr, DecidableEq

/-- The observable database actions of the module and its clients. -/
inductive DbEvent where
  | openRaw (filename : String)
  | pragmaSet (filename : String) (pragmaKey value : String)
  | closeRaw (filename : String)
  | createKnex (conn : DbConn)
  | createTable (conn : DbConn) (table : String) (columns : List String)
  | insertRow (conn : DbConn) (table : String) (row : List String)
deriving Repr, DecidableEq

/-- The contents of one SQLite database: its persistent `journal_mode`
(SQLite stores WAL mode in the file, so it survives reconnection) and its
tables with their rows. -/
structure SqliteDb where
  journalMode : String := "delete"
  tables : List (String × List (List String)) := []
deriving Repr, DecidableEq

/-- Add an empty table. -/
def SqliteDb.addTable (db : SqliteDb) (t : String) : SqliteDb :=
  { db with tables := db.tables ++ [(t, [])] }

/-- Append a row to a table. -/
def SqliteDb.addRow (db : SqliteDb) (t : String) (row : List String) : SqliteDb :=
  { db with tables := db.tables.map (fun p => if p.1 = t then (p.1, p.2 ++ [row]) else p) }

/-- The system state: every on-disk database by filename, plus the single
in-memory database of the `memDB` connection. -/
structure SysState where
  fileDbs : String → SqliteDb
  memDb : SqliteDb

/-- Interpret one event. `journal_mode` pragmas update the persistent mode
of the target file; table operations update the targeted connection's
database; opening, closing and connecting change no database contents. -/
def applyEvent (s : SysState) : DbEvent → SysState
  | .pragmaSet fn p v =>
    if p = "journal_mode" then
      { s with fileDbs := fun f =>
          if f = fn then { s.fileDbs f with journalMode := v } else s.fileDbs f }
    else s
  | .createTable (.file fn) t _ =>
    { s with fileDbs := fun f =>
        if f = fn then (s.fileDbs f).addTable t else s.fileDbs f }
  | .createTable .memory t _ => { s with memDb := s.memDb.addTable t }
  | .insertRow (.file fn) t row =>
    { s with fileDbs := fun f =>
        if f = fn then (s.fileDbs f).addRow t row else s.fileDbs f }
  | .insertRow .memory t row => { s with memDb := s.memDb.addRow t row }
  | .openRaw _ => s
  | .closeRaw _ => s
  | .createKnex _ => s

/-- Run a list of events from a state. -/
def runEvents (s : SysState) (evs : List DbEvent) : SysState :=
  evs.foldl applyEvent s

/-- The empty system state: every file is a fresh database (SQLite's default
journal mode), as is the in-memory database. -/
def initialSysState : SysState :=
  { fileDbs := fun _ => {}, memDb := {} }

/-- The persistent database filename: `join(appDir(), "cross-seed.db")`
(`appDir` comes from configuration.ts, not under src/, so it stays
abstract). -/
def dbFilename (appDir : String) : String :=
  posixJoin appDir "cross-seed.db"

/-- The module-initialisation events of the database module, in source
order. -/
def dbModuleInitTrace (appDir : String) : List DbEvent :=
  [ .openRaw (dbFilename appDir),
    .pragmaSet (dbFilename appDir) "journal_mode" "WAL",
    .closeRaw (dbFilename appDir),
    .createKnex (.file (dbFilename appDir)),
    .createKnex .memory,
    .createTable .memory "data" ["path", "title"],
    .createTable .memory "ensemble" ["path", "ensemble", "element"] ]

/-- Does an event set the `journal_mode` pragma of the given file? -/
def eventSetsJournalMode (fn : String) : DbEvent → Bool
  | .pragmaSet fn2 p _ => fn2 = fn ∧ p = "journal_mode"
  | _ => false

/-! ## Lemmas about the scan loop -/

/-- The query pair the loop issues for one instance URL. -/
def queryOf (cfg : RuntimeConfig) (mediaType : MediaType) (title uArrL : String) :
    String × String :=
  (uArrL, arrQueryName cfg mediaType title uArrL)

lemma scanArrLoop_cons (cfg : RuntimeConfig) (f : FetchParse) (mt : MediaType)
    (t u : String) (rest : List String) :
    scanArrLoop cfg f mt t (u :: rest) =
      match f u (arrQueryName cfg mt t u) with
      | .err _ =>
        ((scanArrLoop cfg f mt t rest).1,
          (u, arrQueryName cfg mt t u) :: (scanArrLoop cfg f mt t rest).2)
      | .ok response =>
        if hasTruthyId response.externalIds then (.ok response, [(u, arrQueryName cfg mt t u)])
        else ((scanArrLoop cfg f mt t rest).1,
          (u, arrQueryName cfg mt t u) :: (scanArrLoop cfg f mt t rest).2) := rfl

/-- Complete characterisation of one run of the scan loop: either some
instance is the first success — all earlier ones failed, the loop stops
there with its response — or every instance fails and the loop returns
`Err(false)` after querying all of them. -/
lemma scanArrLoop_split (cfg : RuntimeConfig) (f : FetchParse) (mt : MediaType)
    (t : String) :
    ∀ urls : List String,
      (∃ pre u post r,
        urls = pre ++ u :: post ∧
        (∀ v ∈ pre, fetchSucceeds f v (arrQueryName cfg mt t v) = false) ∧
        f u (arrQueryName cfg mt t u) = .ok r ∧
        hasTruthyId r.externalIds = true ∧
        scanArrLoop cfg f mt t urls = (.ok r, (pre ++ [u]).map (queryOf cfg mt t))) ∨
      ((∀ v ∈ urls, fetchSucceeds f v (arrQueryName cfg mt t v) = false) ∧
        scanArrLoop cfg f mt t urls = (.err false, urls.map (queryOf cfg mt t))) := by
  intro urls
  induction urls with
  | nil =>
    right
    exact ⟨by simp, by simp [scanArrLoop]⟩
  | cons u rest ih =>
    cases hf : f u (arrQueryName cfg mt t u) with
    | ok response =>
      by_cases ht : hasTruthyId response.externalIds
      · left
        refine ⟨[], u, rest, response, by simp, by simp, hf, ht, ?_⟩
        rw [scanArrLoop_cons, hf]
        simp [ht, queryOf]
      · have hfail : fetchSucceeds f u (arrQueryName cfg mt t u) = false := by
          simp [fetchSucceeds, hf, ht]
        rcases ih with ⟨pre, u2, post, r, hurls, hpre, hok, htr, heq⟩ | ⟨hall, heq⟩
        · left
          refine ⟨u :: pre, u2, post, r, by simp [hurls], ?_, hok, htr, ?_⟩
          · intro v hv
            rcases List.mem_cons.mp hv with rfl | hv
            · exact hfail
            · exact hpre v hv
          · rw [scanArrLoop_cons, hf]
            simp only [ht, if_false, Bool.false_eq_true]
            rw [heq]
            simp [queryOf]
        · right
          refine ⟨?_, ?_⟩
          · intro v hv
            rcases List.mem_cons.mp hv with rfl | hv
            · exact hfail
            · exact hall v hv
          · rw [scanArrLoop_cons, hf]
            simp only [ht, if_false, Bool.false_eq_true]
            rw [heq]
            simp [queryOf]
    | err e =>
      have hfail : fetchSucceeds f u (arrQueryName cfg mt t u) = false := by
        simp [fetchSucceeds, hf]
      rcases ih with ⟨pre, u2, post, r, hurls, hpre, hok, htr, heq⟩ | ⟨hall, heq⟩
      · left
        refine ⟨u :: pre, u2, post, r, by simp [hurls], ?_, hok, htr, ?_⟩
        · intro v hv
          rcases List.mem_cons.mp hv with rfl | hv
          · exact hfail
          · exact hpre v hv
        · rw [scanArrLoop_cons, hf, heq]
          simp [queryOf]
      · right
        refine ⟨?_, ?_⟩
        · intro v hv
          rcases List.mem_cons.mp hv with rfl | hv
          · exact hfail
          · exact hall v hv
        · rw [scanArrLoop_cons, hf, heq]
          simp [queryOf]

lemma map_fst_queryOf (cfg : RuntimeConfig) (mt : MediaType) (t : String) :
    ∀ l : List String, (l.map (queryOf cfg mt t)).map Prod.fst = l := by
  intro l
  induction l with
  | nil => rfl
  | cons a l ih => simp only [List.map_cons, ih, queryOf]

/-- Every query the scan issues carries the per-instance query name built
from the computed title. -/
lemma scanAllArrs_mem_queries (cfg : RuntimeConfig) (f : FetchParse)
    (s : Searchee) (mt : MediaType) :
    ∀ q ∈ (scanAllArrsForMedia cfg f s mt).2,
      q.2 = arrQueryName cfg mt (scanTitle mt s) q.1 := by
  intro q hq
  unfold scanAllArrsForMedia at hq
  by_cases hL : (getRelevantArrInstances cfg mt).length = 0
  · simp [hL] at hq
  · simp only [hL, if_false] at hq
    rcases scanArrLoop_split cfg f mt (scanTitle mt s) (getRelevantArrInstances cfg mt)
      with ⟨pre, u, post, r, _, _, _, _, heq⟩ | ⟨_, heq⟩ <;>
    · rw [heq] at hq
      rcases List.mem_map.mp hq with ⟨v, _, rfl⟩
      rfl

/-! ## Witness fixtures -/

/-- A concrete configuration with two Sonarr and one Radarr instance. -/
def cfgW : RuntimeConfig := { sonarr := ["son1", "son2"], radarr := ["rad1"] }

/-- A concrete parse response with one truthy id. -/
def mediaW : ParsedMedia := .series { tvdbId := some "123" } []

/-- A concrete network oracle: only the second Sonarr instance succeeds. -/
def fetchW : FetchParse := fun u _ =>
  if u = "son2" then .ok mediaW else .err { message := "fail" }

/-- A concrete searchee. -/
def searcheeW : Searchee := ⟨"Some.Show.S01E01"⟩

/-! ## Claim theorems: the scan (C1, C2, C3, C10) -/

/-- **C1.** `scanAllArrsForMedia` queries only the configured Sonarr
instances for SEASON/EPISODE media, only the Radarr instances for MOVIE,
and Sonarr followed by Radarr for OTHER; it works through the relevant
instances in order (the issued queries are an initial segment of the
relevant list), every query before the last is unsuccessful, and an `Ok`
result is the response of the last issued query and carries a truthy
external id — so no instance after the first success is queried. -/
theorem scanAllArrs_instance_selection_and_first_success
    (cfg : RuntimeConfig) (f : FetchParse) (s : Searchee) :
    getRelevantArrInstances cfg .season = cfg.sonarr ∧
    getRelevantArrInstances cfg .episode = cfg.sonarr ∧
    getRelevantArrInstances cfg .movie = cfg.radarr ∧
    getRelevantArrInstances cfg .other = cfg.sonarr ++ cfg.radarr ∧
    ∀ mt : MediaType,
      ((scanAllArrsForMedia cfg f s mt).2.map Prod.fst =
        (getRelevantArrInstances cfg mt).take (scanAllArrsForMedia cfg f s mt).2.length) ∧
      (∀ q ∈ (scanAllArrsForMedia cfg f s mt).2.dropLast,
        fetchSucceeds f q.1 q.2 = false) ∧
      (∀ r, (scanAllArrsForMedia cfg f s mt).1 = .ok r →
        hasTruthyId r.externalIds = true ∧
        ∃ q, (scanAllArrsForMedia cfg f s mt).2.getLast? = some q ∧
          f q.1 q.2 = .ok r) := by
  refine ⟨rfl, rfl, rfl, rfl, ?_⟩
  intro mt
  unfold scanAllArrsForMedia
  by_cases hL : (getRelevantArrInstances cfg mt).length = 0
  · simp [hL]
  · simp only [hL, if_false]
    rcases scanArrLoop_split cfg f mt (scanTitle mt s) (getRelevantArrInstances cfg mt)
      with ⟨pre, u, post, r, hurls, hpre, hok, htr, heq⟩ | ⟨hall, heq⟩
    · have h1 : (scanArrLoop cfg f mt (scanTitle mt s)
          (getRelevantArrInstances cfg mt)).1 = .ok r := by rw [heq]
      have h2 : (scanArrLoop cfg f mt (scanTitle mt s)
          (getRelevantArrInstances cfg mt)).2 =
          (pre ++ [u]).map (queryOf cfg mt (scanTitle mt s)) := by rw [heq]
      refine ⟨?_, ?_, ?_⟩
      · rw [h2, map_fst_queryOf, List.length_map, hurls]
        have hsplit : pre ++ u :: post = (pre ++ [u]) ++ post := by simp
        rw [hsplit]
        exact (List.take_left' (by simp)).symm
      · intro q hq
        rw [h2, List.map_append] at hq
        simp only [List.map_cons, List.map_nil] at hq
        rw [List.dropLast_concat] at hq
        rcases List.mem_map.mp hq with ⟨v, hv, rfl⟩
        exact hpre v hv
      · intro r2 hr2
        rw [h1] at hr2
        cases hr2
        refine ⟨htr, queryOf cfg mt (scanTitle mt s) u, ?_, hok⟩
        rw [h2, List.map_append]
        simp only [List.map_cons, List.map_nil]
        exact List.getLast?_concat _
    · have h1 : (scanArrLoop cfg f mt (scanTitle mt s)
          (getRelevantArrInstances cfg mt)).1 = .err false := by rw [heq]
      have h2 : (scanArrLoop cfg f mt (scanTitle mt s)
          (getRelevantArrInstances cfg mt)).2 =
          (getRelevantArrInstances cfg mt).map (queryOf cfg mt (scanTitle mt s)) := by
        rw [heq]
      refine ⟨?_, ?_, ?_⟩
      · rw [h2, map_fst_queryOf, List.length_map]
        exact (List.take_length _).symm
      · intro q hq
        rw [h2] at hq
        have hq2 := List.dropLast_subset _ hq
        rcases List.mem_map.mp hq2 with ⟨v, hv, rfl⟩
        exact hall v hv
      · intro r2 hr2
        rw [h1] at hr2
        cases hr2

/-- Witness for C1: on the concrete fixture the Sonarr scan for an episode
succeeds at the second instance, whose response is returned as the last
query. -/
theorem scanAllArrs_instance_selection_and_first_success_witness :
    hasTruthyId mediaW.externalIds = true ∧
    ∃ q, (scanAllArrsForMedia cfgW fetchW searcheeW .episode).2.getLast? = some q ∧
      fetchW q.1 q.2 = .ok mediaW :=
  ((scanAllArrs_instance_selection_and_first_success cfgW fetchW searcheeW).2.2.2.2
    .episode).2.2 mediaW (by decide)

/-- **C2.** A query of the OTHER-media scan carries the ` S00E00` suffix
exactly when the queried instance is in the configured Sonarr list; queries
for every other media type never carry it. -/
theorem scanAllArrs_sonarr_s00e00_suffix
    (cfg : RuntimeConfig) (f : FetchParse) (s : Searchee) (mt : MediaType) :
    ∀ q ∈ (scanAllArrsForMedia cfg f s mt).2,
      q.2 = if mt = .other ∧ cfg.sonarr.contains q.1
        then scanTitle .other s ++ " S00E00"
        else scanTitle mt s := by
  intro q hq
  rw [scanAllArrs_mem_queries cfg f s mt q hq]
  unfold arrQueryName
  by_cases h : mt = .other ∧ cfg.sonarr.contains q.1
  · obtain ⟨hmt, hc⟩ := h
    subst hmt
    rfl
  · rw [if_neg h, if_neg h]

/-- Witness for C2: the first Sonarr instance of the fixture receives the
cleaned title with the ` S00E00` suffix on an OTHER-media scan. -/
theorem scanAllArrs_sonarr_s00e00_suffix_witness :
    (("son1", "Some Show S01E01 S00E00") : String × String).2 =
      if MediaType.other = .other ∧
          cfgW.sonarr.contains (("son1", "Some Show S01E01 S00E00") : String × String).1
        then scanTitle .other searcheeW ++ " S00E00"
        else scanTitle .other searcheeW :=
  scanAllArrs_sonarr_s00e00_suffix cfgW fetchW searcheeW .other
    ("son1", "Some Show S01E01 S00E00") (by decide)

/-- **C3.** When every relevant instance fails (in particular when none is
configured), the scan returns `Err(false)` — never throwing — after querying
exactly the relevant instances; with no relevant instance it performs no
query at all. -/
theorem scanAllArrs_err_false_on_total_failure
    (cfg : RuntimeConfig) (f : FetchParse) (s : Searchee) (mt : MediaType)
    (h : ∀ u ∈ getRelevantArrInstances cfg mt,
      fetchSucceeds f u (arrQueryName cfg mt (scanTitle mt s) u) = false) :
    (scanAllArrsForMedia cfg f s mt).1 = .err false ∧
    (scanAllArrsForMedia cfg f s mt).2.map Prod.fst = getRelevantArrInstances cfg mt ∧
    (getRelevantArrInstances cfg mt = [] → (scanAllArrsForMedia cfg f s mt).2 = []) := by
  unfold scanAllArrsForMedia
  by_cases hL : (getRelevantArrInstances cfg mt).length = 0
  · have : getRelevantArrInstances cfg mt = [] := List.length_eq_zero.mp hL
    simp [hL, this]
  · simp only [hL, if_false]
    rcases scanArrLoop_split cfg f mt (scanTitle mt s) (getRelevantArrInstances cfg mt)
      with ⟨pre, u, post, r, hurls, _, hok, htr, _⟩ | ⟨_, heq⟩
    · exfalso
      have hu : u ∈ getRelevantArrInstances cfg mt := by
        rw [hurls]
        simp
      have htrue : fetchSucceeds f u (arrQueryName cfg mt (scanTitle mt s) u) = true := by
        unfold fetchSucceeds
        rw [hok]
        exact htr
      rw [h u hu] at htrue
      exact Bool.noConfusion htrue
    · have h1 : (scanArrLoop cfg f mt (scanTitle mt s)
          (getRelevantArrInstances cfg mt)).1 = .err false := by rw [heq]
      have h2 : (scanArrLoop cfg f mt (scanTitle mt s)
          (getRelevantArrInstances cfg mt)).2 =
          (getRelevantArrInstances cfg mt).map (queryOf cfg mt (scanTitle mt s)) := by
        rw [heq]
      refine ⟨h1, ?_, ?_⟩
      · rw [h2, map_fst_queryOf]
      · intro hnil
        rw [h2, hnil]
        rfl

/-- Witness for C3: the movie scan on the fixture (where the only Radarr
instance errors) returns `Err(false)` after querying exactly that
instance. -/
theorem scanAllArrs_err_false_on_total_failure_witness :
    (scanAllArrsForMedia cfgW fetchW searcheeW .movie).1 = .err false ∧
    (scanAllArrsForMedia cfgW fetchW searcheeW .movie).2.map Prod.fst =
      getRelevantArrInstances cfgW .movie ∧
    (getRelevantArrInstances cfgW .movie = [] →
      (scanAllArrsForMedia cfgW fetchW searcheeW .movie).2 = []) :=
  scanAllArrs_err_false_on_total_failure cfgW fetchW searcheeW .movie (by decide)

/-- **C10.** The title the scan submits is the raw searchee name for every
media type other than OTHER; for OTHER it is the extension-stripped,
release-group-, resolution- and repack/proper-cleaned, separator-cleansed
name (possibly with the Sonarr ` S00E00` suffix of C2). -/
theorem scanAllArrs_title_cleaning
    (cfg : RuntimeConfig) (f : FetchParse) (s : Searchee) (mt : MediaType) :
    (mt ≠ .other → ∀ q ∈ (scanAllArrsForMedia cfg f s mt).2, q.2 = s.name) ∧
    (∀ q ∈ (scanAllArrsForMedia cfg f s .other).2,
      q.2 = cleanseSeparators (removeRepackProper (removeResolution
        (removeReleaseGroup (stripExtension s.name)))) ∨
      q.2 = cleanseSeparators (removeRepackProper (removeResolution
        (removeReleaseGroup (stripExtension s.name)))) ++ " S00E00") := by
  constructor
  · intro hmt q hq
    rw [scanAllArrs_mem_queries cfg f s mt q hq]
    unfold arrQueryName
    have hcond : ¬(mt = .other ∧ cfg.sonarr.contains q.1) := by
      intro hc
      exact hmt hc.1
    rw [if_neg hcond]
    unfold scanTitle
    rw [if_neg hmt]
  · intro q hq
    rw [scanAllArrs_mem_queries cfg f s .other q hq]
    unfold arrQueryName scanTitle
    by_cases hc : MediaType.other = MediaType.other ∧ cfg.sonarr.contains q.1
    · right
      rw [if_pos hc, if_pos rfl]
    · left
      rw [if_neg hc, if_pos rfl]

/-- Witness for C10: an EPISODE-media query on the fixture submits the raw
searchee name. -/
theorem scanAllArrs_title_cleaning_witness :
    (("son1", "Some.Show.S01E01") : String × String).2 = searcheeW.name :=
  (scanAllArrs_title_cleaning cfgW fetchW searcheeW .episode).1 (by decide)
    ("son1", "Some.Show.S01E01") (by decide)

/-! ## Claim theorem: ID-search parameter selection (C4) -/

/-- **C4.** `getRelevantArrIds` uses the movie ID-search capability set when
the parsed media has a `movie` object and the TV set otherwise, and each of
the returned `tvdbid`/`tmdbid`/`imdbid` is the resolved id exactly when the
corresponding flag of the selected set is true, `undefined` otherwise. -/
theorem getRelevantArrIds_caps_selection (caps : Caps) (m ids : ExternalIds)
    (episodes : List (Nat × Nat)) :
    getRelevantArrIds caps (.movie m) =
      { tvdbid := if caps.movieIdSearch.tvdbId then m.tvdbId else none
        tmdbid := if caps.movieIdSearch.tmdbId then m.tmdbId else none
        imdbid := if caps.movieIdSearch.imdbId then m.imdbId else none } ∧
    getRelevantArrIds caps (.series ids episodes) =
      { tvdbid := if caps.tvIdSearch.tvdbId then ids.tvdbId else none
        tmdbid := if caps.tvIdSearch.tmdbId then ids.tmdbId else none
        imdbid := if caps.tvIdSearch.imdbId then ids.imdbId else none } :=
  ⟨rfl, rfl⟩

/-! ## Claim theorem: startup validation (C5) -/

lemma checkArrIsActive_ok_iff (ping : PingCall) (u label : String) :
    checkArrIsActive ping u label = .ok () ↔ pingValidates ping u = true := by
  unfold checkArrIsActive pingValidates
  cases hp : ping u with
  | ok body =>
    cases ht : truthyCurrent body <;> simp [ht]
  | err e => simp

lemma validateArrUrlList_ok_iff (ping : PingCall) (label : String) :
    ∀ urls : List String,
      validateArrUrlList ping label urls = .ok () ↔
        ∀ u ∈ urls, urlHasApikey u = true ∧ pingValidates ping u = true := by
  intro urls
  induction urls with
  | nil => simp [validateArrUrlList]
  | cons u rest ih =>
    simp only [validateArrUrlList]
    by_cases ha : urlHasApikey u = true
    · rw [if_pos ha]
      cases hc : checkArrIsActive ping u label with
      | ok a =>
        cases a
        have hping : pingValidates ping u = true :=
          (checkArrIsActive_ok_iff ping u label).mp hc
        simp [ih, ha, hping]
      | error e =>
        have hping : pingValidates ping u = false := by
          cases hpv : pingValidates ping u
          · rfl
          · exact absurd ((checkArrIsActive_ok_iff ping u label).mpr hpv)
              (by rw [hc]; exact fun h => Except.noConfusion h)
        simp [hping]
    · rw [if_neg ha]
      simp [ha]

/-- **C5.** `validateUArrLs` returns normally if and only if every
configured Sonarr and Radarr URL carries an `apikey` query parameter and the
ping at that URL succeeds with a truthy `current` field; equivalently it
throws a `CrossSeedError` exactly when some configured URL lacks the apikey,
its ping errors, or the ping body has no truthy `current`. -/
theorem validateUArrLs_ok_iff (cfg : RuntimeConfig) (ping : PingCall) :
    validateUArrLs cfg ping = .ok () ↔
      ∀ u ∈ cfg.sonarr ++ cfg.radarr,
        urlHasApikey u = true ∧ pingValidates ping u = true := by
  unfold validateUArrLs
  cases hs : validateArrUrlList ping "Sonarr" cfg.sonarr with
  | ok a =>
    cases a
    have hson := (validateArrUrlList_ok_iff ping "Sonarr" cfg.sonarr).mp hs
    rw [validateArrUrlList_ok_iff]
    constructor
    · intro hrad u hu
      rcases List.mem_append.mp hu with h | h
      · exact hson u h
      · exact hrad u h
    · intro hall u hu
      exact hall u (List.mem_append.mpr (Or.inr hu))
  | error e =>
    constructor
    · intro h
      exact Except.noConfusion h
    · intro hall
      exfalso
      have : validateArrUrlList ping "Sonarr" cfg.sonarr = .ok () :=
        (validateArrUrlList_ok_iff ping "Sonarr" cfg.sonarr).mpr
          (fun u hu => hall u (List.mem_append.mpr (Or.inl hu)))
      rw [hs] at this
      exact Except.noConfusion this

/-- A concrete ping oracle that always answers with a truthy `current`. -/
def pingGoodW : PingCall := fun _ => .ok (some { current := some "1.0" })

/-- Witness for C5: a configuration whose single Sonarr URL has an apikey
and whose ping validates is accepted by `validateUArrLs`. -/
theorem validateUArrLs_ok_iff_witness :
    validateUArrLs { sonarr := ["http://localhost:8989/?apikey=abc"], radarr := [] }
      pingGoodW = .ok () :=
  (validateUArrLs_ok_iff
    { sonarr := ["http://localhost:8989/?apikey=abc"], radarr := [] } pingGoodW).mpr
    (by decide)

/-! ## Claim theorems: the Arr HTTP call (C6, C9) -/

lemma makeArrApiCall_thrown_snd (α : Type) (uArrL : ArrUrl) (resourcePath : String)
    (params : List (String × String)) (e : JsError) :
    (makeArrApiCall α uArrL resourcePath params (.thrown e)).2 =
      if e.name = "AbortError"
        then .err { name := "Error", message := "connection timeout" }
        else .err e := rfl

lemma makeArrApiCall_httpError_snd (α : Type) (uArrL : ArrUrl) (resourcePath : String)
    (params : List (String × String)) (status : Nat) (statusText body : String) :
    (makeArrApiCall α uArrL resourcePath params (.httpError status statusText body)).2 =
      .err { name := "Error"
             message := toString status ++ " " ++ statusText ++ " " ++
               getBodySampleMessage body } := rfl

lemma makeArrApiCall_okNonJson_snd (α : Type) (uArrL : ArrUrl) (resourcePath : String)
    (params : List (String × String)) (body : String) :
    (makeArrApiCall α uArrL resourcePath params (.okNonJson body)).2 =
      .err { name := "Error"
             message := "Arr response was non-JSON. " ++ getBodySampleMessage body } := rfl

lemma getBodySampleMessage_take (b b2 : String) (h : b.take 1000 = b2.take 1000) :
    getBodySampleMessage b = getBodySampleMessage b2 := by
  show (if b.take 1000 ≠ "" then "first 1000 characters: " ++ b.take 1000 else "") =
    (if b2.take 1000 ≠ "" then "first 1000 characters: " ++ b2.take 1000 else "")
  rw [h]

/-- **C6.** Every Arr API request is a GET of the resource path joined under
the Arr URL, carries the URL's apikey in the `X-Api-Key` header and a
30-second (30000 ms) deadline; the parse lookup is a GET of
`/api/v3/parse` with the title as the `title` query parameter; and when the
deadline elapses (the fetch rejects with an `AbortError`) the call returns
`Err("connection timeout")` instead of throwing. -/
theorem makeArrApiCall_request_shape (α : Type) (uArrL : ArrUrl)
    (resourcePath : String) (params : List (String × String))
    (outcome : FetchOutcome α) (title : String)
    (pOutcome : FetchOutcome ParsedMedia) (e : JsError) :
    (makeArrApiCall α uArrL resourcePath params outcome).1 =
      { method := "GET", origin := uArrL.origin,
        path := posixJoin uArrL.pathname resourcePath, params := params,
        headerApiKey := uArrL.apikey, timeoutMs := 30000 } ∧
    (getMediaFromArr uArrL title pOutcome).1 =
      { method := "GET", origin := uArrL.origin,
        path := posixJoin uArrL.pathname "/api/v3/parse",
        params := [("title", title)],
        headerApiKey := uArrL.apikey, timeoutMs := 30000 } ∧
    (e.name = "AbortError" →
      (makeArrApiCall α uArrL resourcePath params (.thrown e)).2 =
        .err { name := "Error", message := "connection timeout" }) := by
  refine ⟨rfl, rfl, ?_⟩
  intro h
  rw [makeArrApiCall_thrown_snd, if_pos h]

/-- A concrete Arr URL for the witnesses. -/
def arrUrlW : ArrUrl :=
  { origin := "http://localhost:7878"
    pathname := "/radarr"
    apikey := some "k123" }

/-- Witness for C6: an `AbortError` rejection at the concrete URL yields
`Err("connection timeout")`. -/
theorem makeArrApiCall_request_shape_witness :
    (makeArrApiCall ParsedMedia arrUrlW "/api" []
        (.thrown { name := "AbortError", message := "aborted" })).2 =
      .err { name := "Error", message := "connection timeout" } :=
  (makeArrApiCall_request_shape ParsedMedia arrUrlW "/api" []
    (.okNonJson "") "t" (.okJson mediaW)
    { name := "AbortError", message := "aborted" }).2.2 (by decide)

/-- **C9.** `makeArrApiCall` maps every failure mode to an `Err` Result —
rejected fetches (with the timeout rewritten to "connection timeout"),
non-2xx statuses, and non-JSON bodies — and the error message built for a
non-2xx or non-JSON response depends on the response body only through its
first 1000 characters. -/
theorem makeArrApiCall_total_error_handling (α : Type) (uArrL : ArrUrl)
    (resourcePath : String) (params : List (String × String)) :
    (∀ e : JsError, (makeArrApiCall α uArrL resourcePath params (.thrown e)).2 =
      .err (if e.name = "AbortError"
        then { name := "Error", message := "connection timeout" } else e)) ∧
    (∀ status statusText body,
      (makeArrApiCall α uArrL resourcePath params (.httpError status statusText body)).2 =
        .err { name := "Error"
               message := toString status ++ " " ++ statusText ++ " " ++
                 getBodySampleMessage body }) ∧
    (∀ body, (makeArrApiCall α uArrL resourcePath params (.okNonJson body)).2 =
      .err { name := "Error"
             message := "Arr response was non-JSON. " ++ getBodySampleMessage body }) ∧
    (∀ status statusText body otherBody, body.take 1000 = otherBody.take 1000 →
      (makeArrApiCall α uArrL resourcePath params (.httpError status statusText body)).2 =
        (makeArrApiCall α uArrL resourcePath params
          (.httpError status statusText otherBody)).2) ∧
    (∀ body otherBody, body.take 1000 = otherBody.take 1000 →
      (makeArrApiCall α uArrL resourcePath params (.okNonJson body)).2 =
        (makeArrApiCall α uArrL resourcePath params (.okNonJson otherBody)).2) := by
  refine ⟨?_, fun _ _ _ => rfl, fun _ => rfl, ?_, ?_⟩
  · intro e
    rw [makeArrApiCall_thrown_snd]
    by_cases h : e.name = "AbortError"
    · rw [if_pos h, if_pos h]
    · rw [if_neg h, if_neg h]
  · intro status statusText body otherBody h
    rw [makeArrApiCall_httpError_snd, makeArrApiCall_httpError_snd,
      getBodySampleMessage_take body otherBody h]
  · intro body otherBody h
    rw [makeArrApiCall_okNonJson_snd, makeArrApiCall_okNonJson_snd,
      getBodySampleMessage_take body otherBody h]

/-- Witness for C9: two bodies agreeing on their first 1000 characters
produce the same non-JSON error Result at the concrete URL. -/
theorem makeArrApiCall_total_error_handling_witness :
    (makeArrApiCall ParsedMedia arrUrlW "/api/v3/parse" [("title", "t")]
        (.okNonJson "<html>oops</html>")).2 =
      (makeArrApiCall ParsedMedia arrUrlW "/api/v3/parse" [("title", "t")]
        (.okNonJson "<html>oops</html>")).2 :=
  (makeArrApiCall_total_error_handling ParsedMedia arrUrlW "/api/v3/parse"
    [("title", "t")]).2.2.2.2 "<html>oops</html>" "<html>oops</html>" rfl

/-! ## Claim theorems: the database bootstrap (C7, C8) -/

lemma applyEvent_journalMode (fn : String) (s : SysState) (e : DbEvent)
    (h : eventSetsJournalMode fn e = false) :
    ((applyEvent s e).fileDbs fn).journalMode = (s.fileDbs fn).journalMode := by
  cases e with
  | openRaw _ => rfl
  | closeRaw _ => rfl
  | createKnex _ => rfl
  | pragmaSet fn2 p v =>
    dsimp only [applyEvent]
    by_cases hp : p = "journal_mode"
    · rw [if_pos hp]
      have hfn : ¬(fn = fn2) := by
        intro hfn
        rw [eventSetsJournalMode] at h
        simp [hfn, hp] at h
      dsimp only
      rw [if_neg hfn]
    · rw [if_neg hp]
  | createTable conn t cols =>
    cases conn with
    | memory => rfl
    | file fn2 =>
      dsimp only [applyEvent]
      by_cases hfn : fn = fn2
      · rw [if_pos hfn, hfn]
        rfl
      · rw [if_neg hfn]
  | insertRow conn t row =>
    cases conn with
    | memory => rfl
    | file fn2 =>
      dsimp only [applyEvent]
      by_cases hfn : fn = fn2
      · rw [if_pos hfn, hfn]
        rfl
      · rw [if_neg hfn]

lemma runEvents_journalMode (fn : String) :
    ∀ (evs : List DbEvent) (s : SysState),
      (∀ e ∈ evs, eventSetsJournalMode fn e = false) →
      ((runEvents s evs).fileDbs fn).journalMode = (s.fileDbs fn).journalMode := by
  intro evs
  induction evs with
  | nil => intro s _; rfl
  | cons e rest ih =>
    intro s h
    have hstep : runEvents s (e :: rest) = runEvents (applyEvent s e) rest := rfl
    rw [hstep, ih (applyEvent s e) (fun e2 he2 => h e2 (List.mem_cons_of_mem e he2)),
      applyEvent_journalMode fn s e (h e (List.mem_cons_self e rest))]

lemma dbInit_journalMode (appDir : String) :
    ((runEvents initialSysState (dbModuleInitTrace appDir)).fileDbs
      (dbFilename appDir)).journalMode = "WAL" := by
  simp [runEvents, dbModuleInitTrace, applyEvent, initialSysState]

/-- **C7.** The database module's initialisation opens the single SQLite file
`cross-seed.db` under the application directory and sets its `journal_mode`
pragma to WAL strictly before the Knex connection on that file is created;
afterwards the persistent file's journal mode is WAL, and it stays WAL under
any further events that do not set that file's `journal_mode` pragma — so
every subsequent access to the persistent database runs under WAL
journaling. -/
theorem dbModule_wal_before_knex (appDir : String) (evs : List DbEvent)
    (h : ∀ e ∈ evs, eventSetsJournalMode (dbFilename appDir) e = false) :
    dbFilename appDir = posixJoin appDir "cross-seed.db" ∧
    (dbModuleInitTrace appDir)[1]? =
      some (.pragmaSet (dbFilename appDir) "journal_mode" "WAL") ∧
    (dbModuleInitTrace appDir)[3]? =
      some (.createKnex (.file (dbFilename appDir))) ∧
    ((runEvents initialSysState (dbModuleInitTrace appDir)).fileDbs
      (dbFilename appDir)).journalMode = "WAL" ∧
    ((runEvents initialSysState (dbModuleInitTrace appDir ++ evs)).fileDbs
      (dbFilename appDir)).journalMode = "WAL" := by
  refine ⟨rfl, rfl, rfl, dbInit_journalMode appDir, ?_⟩
  have happ : runEvents initialSysState (dbModuleInitTrace appDir ++ evs) =
      runEvents (runEvents initialSysState (dbModuleInitTrace appDir)) evs :=
    List.foldl_append _ _ _ _
  rw [happ, runEvents_journalMode (dbFilename appDir) evs _ h,
    dbInit_journalMode appDir]

/-- Witness for C7: after the module init under `/config` followed by an
in-memory insert, the persistent file still runs under WAL. -/
theorem dbModule_wal_before_knex_witness :
    ((runEvents initialSysState
      (dbModuleInitTrace "/config" ++ [.insertRow .memory "data" ["p", "t"]])).fileDbs
      (dbFilename "/config")).journalMode = "WAL" :=
  (dbModule_wal_before_knex "/config" [.insertRow .memory "data" ["p", "t"]]
    (by decide)).2.2.2.2

/-- **C8.** The `data` and `ensemble` tables are created only on the
in-memory `memDB` connection: every table created by the init trace targets
the `:memory:` connection, after init the in-memory database holds exactly
those two tables while the persistent file holds none, and any operation on
the in-memory connection leaves every on-disk database — in particular the
persistent single-file database — unchanged. -/
theorem memdb_tables_frame (appDir : String) (s : SysState) (t : String)
    (cols : List String) (row : List String) :
    (∀ e ∈ dbModuleInitTrace appDir, ∀ conn tbl cs,
      e = .createTable conn tbl cs → conn = DbConn.memory) ∧
    (runEvents initialSysState (dbModuleInitTrace appDir)).memDb.tables =
      [("data", []), ("ensemble", [])] ∧
    ((runEvents initialSysState (dbModuleInitTrace appDir)).fileDbs
      (dbFilename appDir)).tables = [] ∧
    (applyEvent s (.createTable .memory t cols)).fileDbs = s.fileDbs ∧
    (applyEvent s (.insertRow .memory t row)).fileDbs = s.fileDbs := by
  refine ⟨?_, rfl, ?_, rfl, rfl⟩
  · intro e he conn tbl cs heq
    simp only [dbModuleInitTrace, List.mem_cons, List.not_mem_nil, or_false] at he
    rcases he with rfl | rfl | rfl | rfl | rfl | rfl | rfl <;>
      first
        | exact DbEvent.noConfusion heq
        | (cases heq; rfl)
  · simp [runEvents, dbModuleInitTrace, applyEvent, initialSysState]

/-- Witness for C8: creating the `data` table on the in-memory connection
leaves the map of on-disk databases untouched. -/
theorem memdb_tables_frame_witness :
    (applyEvent initialSysState
      (.createTable .memory "data" ["path", "title"])).fileDbs =
      initialSysState.fileDbs :=
  (memdb_tables_frame "/config" initialSysState "data" ["path", "title"]
    ["r1"]).2.2.2.1

end CrossSeed
